import Mathlib

/-!
Shallow embedding of the DestinE-Platform-AuthN repository
(`destinepyauth`: `services.py`, `hooks.py`, `configs.py`, `api.py`),
together with theorems settling the specification claims.

Modelling conventions:
- Python exceptions are modelled by `Except PyError`.
- An HTTP response is a record: status code, raw body text, and the result
  of `response.json()` (`none` when the body is not parseable JSON, in which
  case `.json()` raises).  Only string-valued JSON fields appear in the
  repository's logic, so a parsed body is an association list of strings.
- `requests.post` calls are reified: `token_exchange` returns the list of
  requests it sends alongside its result, so "exactly one POST, no retry"
  is the statement that this list is a singleton.
- The `destinepyauth.authentication` module is not among the sources;
  `login` / `login_2fa` are therefore abstract parameters of `get_token`,
  and `TokenResult` is modelled from the spec.
-/

/-- Python errors raised by the embedded code paths: `ValueError` (unknown
service), `AuthenticationError`, `UnboundLocalError` (a local referenced
before assignment), and the JSON decode error raised by `response.json()`. -/
inductive PyError where
  | valueError (msg : String)
  | authenticationError (msg : String)
  | unboundLocalError (var : String)
  | jsonDecodeError
  deriving DecidableEq, Repr

/-- A `token_exchange` entry of the service registry (`services.py`,
`_REGISTRY`): token endpoint URL, audience, subject issuer and client id.
`client_id` is read with `.get` in `load_config`, hence optional. -/
structure ExchangeCfgEntry where
  token_url : String
  audience : String
  subject_issuer : String
  client_id : Option String
  deriving DecidableEq, Repr

/-- One value of `ServiceRegistry._REGISTRY`: scope string, defaults map
(field name to default value) and optional token-exchange section. -/
structure ServiceInfo where
  scope : String
  defaults : List (String × String)
  token_exchange : Option ExchangeCfgEntry
  deriving DecidableEq, Repr

namespace ServiceRegistry

/-- `ServiceRegistry._REGISTRY` from `services.py`, in source order. -/
def REGISTRY : List (String × ServiceInfo) :=
  [ ("cacheb",
     { scope := "openid offline_access",
       defaults := [("iam_client", "edh-public"),
                    ("iam_redirect_uri", "https://cacheb.dcms.destine.eu/")],
       token_exchange := none }),
    ("streamer",
     { scope := "openid",
       defaults := [("iam_client", "streaming-fe"),
                    ("iam_redirect_uri", "https://streamer.destine.eu/")],
       token_exchange := none }),
    ("insula",
     { scope := "openid",
       defaults := [("iam_client", "insula-public"),
                    ("iam_redirect_uri", "https://insula.destine.eu/")],
       token_exchange := none }),
    ("eden",
     { scope := "openid",
       defaults := [("iam_client", "hda-broker-public"),
                    ("iam_redirect_uri", "https://broker.eden.destine.eu/")],
       token_exchange := none }),
    ("dea",
     { scope := "openid",
       defaults := [("iam_client", "dea_client"),
                    ("iam_redirect_uri", "https://dea.destine.eu/")],
       token_exchange := none }),
    ("highway",
     { scope := "openid",
       defaults := [("iam_client", "highway-public"),
                    ("iam_redirect_uri", "https://highway.esa.int/sso/auth/realms/highway/broker/DESP_IAM_PROD/endpoint")],
       token_exchange := some
         { token_url := "https://highway.esa.int/sso/auth/realms/highway/protocol/openid-connect/token",
           audience := "highway-public",
           subject_issuer := "DESP_IAM_PROD",
           client_id := some "highway-public" } }),
    ("polytope",
     { scope := "openid offline_access",
       defaults := [("iam_client", "polytope-api-public"),
                    ("iam_redirect_uri", "https://polytope.lumi.apps.dte.destination-earth.eu/")],
       token_exchange := none }),
    ("hda",
     { scope := "openid",
       defaults := [("iam_client", "dedl-hda"),
                    ("iam_redirect_uri", "https://hda.data.destination-earth.eu/stac")],
       token_exchange := some
         { token_url := "https://identity.data.destination-earth.eu/auth/realms/dedl/protocol/openid-connect/token",
           audience := "hda-public",
           subject_issuer := "desp-oidc",
           client_id := some "hda-public" } }) ]

/-- Registered service names, in registry order (`list_services`). -/
def list_services : List String := REGISTRY.map Prod.fst

/-- `ServiceRegistry.get_service_info`: look the name up in the registry;
an unknown name raises `ValueError` with the message built in the source. -/
def get_service_info (service_name : String) : Except PyError ServiceInfo :=
  match REGISTRY.lookup service_name with
  | none =>
      Except.error (PyError.valueError
        ("Unknown service: " ++ service_name ++ ". Available: "
          ++ String.intercalate ", " list_services))
  | some info => Except.ok info

end ServiceRegistry

/-- An HTTP response as observed by the embedded code: status code, raw body
text, and the outcome of `response.json()` (`none` when parsing raises). -/
structure HttpResponse where
  status_code : Nat
  text : String
  jsonBody : Option (List (String × String))
  deriving DecidableEq, Repr

/-- The single form-encoded POST that `token_exchange` sends: URL, the
fields of its `data` dict, and the timeout passed to `requests.post`. -/
structure ExchangeRequest where
  url : String
  grant_type : String
  subject_token : String
  subject_issuer : String
  subject_token_type : String
  client_id : Option String
  audience : String
  timeout : Nat
  deriving DecidableEq, Repr

/-- `TOKEN_EXCHANGE_GRANT_TYPE` from `hooks.py` (RFC 8693). -/
def TOKEN_EXCHANGE_GRANT_TYPE : String :=
  "urn:ietf:params:oauth:grant-type:token-exchange"

/-- Default value of the `subject_token_type` keyword argument of
`token_exchange` in `hooks.py`. -/
def SUBJECT_TOKEN_TYPE_DEFAULT : String :=
  "urn:ietf:params:oauth:token-type:access_token"

/-- Default value of the `timeout` keyword argument of `token_exchange`. -/
def TIMEOUT_DEFAULT : Nat := 10

/-- The error message computed by `token_exchange` for a non-200 response:
`error_description` if present, else `error`, else the literal "Unknown"
when the body parses as JSON; the first 200 characters of the raw body when
`response.json()` raises. -/
def exchangeFailureMsg (resp : HttpResponse) : String :=
  match resp.jsonBody with
  | some fields =>
      ((fields.lookup "error_description").getD
        ((fields.lookup "error").getD "Unknown"))
  | none => resp.text.take 200

/-- `token_exchange` from `hooks.py`, with the response to its single POST
supplied as an argument.  Returns the list of requests sent (always exactly
one — the source performs a single `requests.post` and never retries)
paired with either the exchanged token or the raised error.  A falsy
(`None`-like missing or empty-string) `access_token` on HTTP 200 raises
`AuthenticationError` ("No access token in exchange response"); a 200
response whose body is not JSON propagates the `.json()` decode error. -/
def token_exchange (token_url subject_token : String) (client_id : Option String)
    (audience subject_issuer subject_token_type : String) (timeout : Nat)
    (resp : HttpResponse) : List ExchangeRequest × Except PyError String :=
  let req : ExchangeRequest :=
    { url := token_url,
      grant_type := TOKEN_EXCHANGE_GRANT_TYPE,
      subject_token := subject_token,
      subject_issuer := subject_issuer,
      subject_token_type := subject_token_type,
      client_id := client_id,
      audience := audience,
      timeout := timeout }
  if resp.status_code ≠ 200 then
    (([req], Except.error (PyError.authenticationError
        ("Exchange failed: " ++ exchangeFailureMsg resp))))
  else
    match resp.jsonBody with
    | none => ([req], Except.error PyError.jsonDecodeError)
    | some result =>
        match result.lookup "access_token" with
        | none =>
            ([req], Except.error (PyError.authenticationError
              "No access token in exchange response"))
        | some exchanged_token =>
            if exchanged_token = "" then
              ([req], Except.error (PyError.authenticationError
                "No access token in exchange response"))
            else
              ([req], Except.ok exchanged_token)

/-- Nested exchange configuration of `BaseConfig` (`configs.py`,
`BaseExchangeConfig`): all fields optional, default `None`. -/
structure BaseExchangeConfig where
  token_url : Option String
  audience : Option String
  subject_issuer : Option String
  client_id : Option String
  deriving DecidableEq, Repr

/-- `BaseConfig` from `configs.py`.  Fields declared `str | None` are
`Option String`; `iam_url`, `iam_realm` and `scope` are plain strings with
non-None defaults. -/
structure BaseConfig where
  user : Option String
  password : Option String
  iam_url : String
  iam_realm : String
  iam_client : Option String
  iam_redirect_uri : Option String
  scope : String
  exchange_config : Option BaseExchangeConfig
  deriving DecidableEq, Repr

/-- The declared field defaults of `BaseConfig` — what `Conflator.load`
produces when no environment variable or CLI argument overrides a field. -/
def BaseConfig.default : BaseConfig :=
  { user := none,
    password := none,
    iam_url := "https://auth.destine.eu",
    iam_realm := "desp",
    iam_client := none,
    iam_redirect_uri := none,
    scope := "openid",
    exchange_config := none }

/-- `getattr(config, key, None)` restricted to the string-typed fields of
`BaseConfig` (string values wrapped in `some`); every key of a registry
defaults map is such a field. -/
def getattr_field (c : BaseConfig) (key : String) : Option String :=
  match key with
  | "user" => c.user
  | "password" => c.password
  | "iam_url" => some c.iam_url
  | "iam_realm" => some c.iam_realm
  | "iam_client" => c.iam_client
  | "iam_redirect_uri" => c.iam_redirect_uri
  | "scope" => some c.scope
  | _ => none

/-- `setattr(config, key, value)` for string values on the fields of
`BaseConfig`; a key that is not such a field leaves the record unchanged
(no registry defaults map contains one). -/
def setattr_field (c : BaseConfig) (key value : String) : BaseConfig :=
  match key with
  | "user" => { c with user := some value }
  | "password" => { c with password := some value }
  | "iam_url" => { c with iam_url := value }
  | "iam_realm" => { c with iam_realm := value }
  | "iam_client" => { c with iam_client := some value }
  | "iam_redirect_uri" => { c with iam_redirect_uri := some value }
  | "scope" => { c with scope := value }
  | _ => c

/-- The defaults-application loop of `load_config` (`services.py`): for each
`(key, default_value)` of the service's defaults map, set the field only
when its current value is `None`. -/
def applyDefaults (config : BaseConfig) (defaults : List (String × String)) :
    BaseConfig :=
  defaults.foldl
    (fun cfg kv =>
      match getattr_field cfg kv.fst with
      | none => setattr_field cfg kv.fst kv.snd
      | some _ => cfg)
    config

/-- The environment captured by the `_exchange_hook` closure built in
`load_config`: the registry entry's token URL, audience, subject issuer and
(via `.get`) client id. -/
structure ExchangeHookSpec where
  token_url : String
  audience : String
  subject_issuer : String
  client_id : Option String
  deriving DecidableEq, Repr

namespace ConfigurationFactory

/-- `ConfigurationFactory.load_config` from `services.py`.  `loaded` is the
configuration produced by `Conflator("despauth", BaseConfig).load()` (an
input here, since it reads environment and CLI).  The source assigns the
local `hook` only inside `if exchange_cfg is not None:`, so for a service
without a `token_exchange` section the final `return config, scope, hook`
raises `UnboundLocalError` — modelled faithfully below. -/
def load_config (service_name : String) (loaded : BaseConfig) :
    Except PyError (BaseConfig × String × Option ExchangeHookSpec) :=
  match ServiceRegistry.get_service_info service_name with
  | Except.error e => Except.error e
  | Except.ok service_info =>
      let config := applyDefaults loaded service_info.defaults
      match service_info.token_exchange with
      | some exchange_cfg =>
          Except.ok (config, service_info.scope, some
            { token_url := exchange_cfg.token_url,
              audience := exchange_cfg.audience,
              subject_issuer := exchange_cfg.subject_issuer,
              client_id := exchange_cfg.client_id })
      | none => Except.error (PyError.unboundLocalError "hook")

end ConfigurationFactory

/-- The body of the `_exchange_hook` closure: calls `token_exchange` with
the captured registry values, the default `subject_token_type` (omitted at
the call site) and the literal `timeout=10`; the `cfg` parameter of the
hook is never used. -/
def runExchangeHook (h : ExchangeHookSpec) (access_token : String)
    (cfg : BaseConfig) (resp : HttpResponse) :
    List ExchangeRequest × Except PyError String :=
  token_exchange h.token_url access_token h.client_id h.audience
    h.subject_issuer SUBJECT_TOKEN_TYPE_DEFAULT 10 resp

/-- Modelled from the spec: `TokenResult` of the authentication engine
(module `destinepyauth.authentication`, not among the sources) — access
token, decoded payload, and optionally the exchanged token. -/
structure TokenResult where
  access_token : String
  payload : List (String × String)
  exchanged_token : Option String
  deriving DecidableEq, Repr

/-- `get_token` from `api.py`.  `login` and `login_2fa` are the operations
of the (absent) `AuthenticationService`, abstract here: each receives the
constructor arguments `(config, scope, post_auth_hook)` and `write_netrc`
(plus `otp` for the 2FA variant).  The source returns `result` when
`write_netrc` is false and falls off the end (returning `None`) otherwise;
the logging set-up has no bearing on the result and is omitted. -/
def get_token
    (login : BaseConfig → String → Option ExchangeHookSpec → Bool →
      Except PyError TokenResult)
    (login_2fa : BaseConfig → String → Option ExchangeHookSpec → Bool →
      Option String → Except PyError TokenResult)
    (loaded : BaseConfig) (service : String) (write_netrc twofa : Bool)
    (otp : Option String) : Except PyError (Option TokenResult) :=
  match ConfigurationFactory.load_config service loaded with
  | Except.error e => Except.error e
  | Except.ok (config, scope, hook) =>
      match (if twofa then login_2fa config scope hook write_netrc otp
             else login config scope hook write_netrc) with
      | Except.error e => Except.error e
      | Except.ok result =>
          Except.ok (if write_netrc then none else some result)

lemma lookup_eq_none_iff_not_mem_keys (s : String)
    (l : List (String × ServiceInfo)) :
    l.lookup s = none ↔ s ∉ l.map Prod.fst := by
  induction l with
  | nil => simp
  | cons hd tl ih =>
      obtain ⟨k, v⟩ := hd
      by_cases hk : s = k
      · subst hk
        simp [List.lookup]
      · simp [List.lookup, beq_false_of_ne hk, hk, ih]

/-- C1: the claim states that `load_config` returns `(config, scope, hook)`
for every registered service, with the hook absent when the registry entry
has no `token_exchange` section.  The code instead raises
`UnboundLocalError` there: `hook` is only assigned inside
`if exchange_cfg is not None:`, against the function's own signature
(`Optional[Callable]` hook) and docstring.  This theorem evaluates the
embedded code at the failing input `"cacheb"` (any `loaded` config). -/
theorem C1_load_config_unbound_local (loaded : BaseConfig) :
    ConfigurationFactory.load_config "cacheb" loaded =
      Except.error (PyError.unboundLocalError "hook") := rfl

/-- C4: `get_service_info` errors exactly on unregistered names, the error
is a `ValueError` (configuration error, never `AuthenticationError`), and a
registered name yields its registry entry. -/
theorem C4_get_service_info (s : String) :
    ((∃ e, ServiceRegistry.get_service_info s = Except.error e) ↔
      s ∉ ServiceRegistry.list_services) ∧
    (∀ e, ServiceRegistry.get_service_info s = Except.error e →
      ∃ m, e = PyError.valueError m) ∧
    (∀ info, ServiceRegistry.REGISTRY.lookup s = some info →
      ServiceRegistry.get_service_info s = Except.ok info) := by
  unfold ServiceRegistry.get_service_info ServiceRegistry.list_services
  cases hl : ServiceRegistry.REGISTRY.lookup s with
  | none =>
      rw [lookup_eq_none_iff_not_mem_keys] at hl
      refine ⟨⟨fun _ => hl, fun _ => ⟨_, rfl⟩⟩, fun e he => ?_, fun info hi => ?_⟩
      · exact ⟨_, (Except.error.injEq _ _ ▸ he.symm)⟩
      · exact absurd hi (by simp [(lookup_eq_none_iff_not_mem_keys s _).mpr hl])
  | some v =>
      have hmem : s ∈ ServiceRegistry.REGISTRY.map Prod.fst := by
        by_contra hnot
        rw [← lookup_eq_none_iff_not_mem_keys] at hnot
        rw [hl] at hnot
        exact Option.noConfusion hnot
      refine ⟨⟨fun he => ?_, fun hn => absurd hmem hn⟩, fun e he => ?_, fun info hi => ?_⟩
      · obtain ⟨e, he⟩ := he
        exact absurd he (by simp)
      · exact absurd he (by simp)
      · injection hi with h2
        subst h2
        rfl

/-- C4 witness: the theorem applied at the registered name `"cacheb"`. -/
theorem C4_witness :
    ServiceRegistry.get_service_info "cacheb" =
      Except.ok
        { scope := "openid offline_access",
          defaults := [("iam_client", "edh-public"),
                       ("iam_redirect_uri", "https://cacheb.dcms.destine.eu/")],
          token_exchange := none } :=
  (C4_get_service_info "cacheb").2.2 _ rfl

lemma applyDefaults_pair (cfg : BaseConfig) (c r : String) :
    applyDefaults cfg [("iam_client", c), ("iam_redirect_uri", r)] =
      { cfg with
        iam_client := some (cfg.iam_client.getD c),
        iam_redirect_uri := some (cfg.iam_redirect_uri.getD r) } := by
  obtain ⟨u, pw, iu, irlm, ic, iru, sc, ec⟩ := cfg
  cases ic <;> cases iru <;> rfl

/-- C7: for every registered service, applying the registry defaults touches
only the fields named in the defaults map (`iam_client`,
`iam_redirect_uri`), and only when their current value is `None`, setting
them to the registry default; every other field, and every field already
holding a value, is unchanged. -/
theorem C7_defaults_frame (s : String) (info : ServiceInfo)
    (h : ServiceRegistry.get_service_info s = Except.ok info)
    (cfg : BaseConfig) :
    (applyDefaults cfg info.defaults).user = cfg.user ∧
    (applyDefaults cfg info.defaults).password = cfg.password ∧
    (applyDefaults cfg info.defaults).iam_url = cfg.iam_url ∧
    (applyDefaults cfg info.defaults).iam_realm = cfg.iam_realm ∧
    (applyDefaults cfg info.defaults).scope = cfg.scope ∧
    (applyDefaults cfg info.defaults).exchange_config = cfg.exchange_config ∧
    (∀ v, cfg.iam_client = some v →
      (applyDefaults cfg info.defaults).iam_client = some v) ∧
    (cfg.iam_client = none →
      (applyDefaults cfg info.defaults).iam_client =
        info.defaults.lookup "iam_client") ∧
    (∀ v, cfg.iam_redirect_uri = some v →
      (applyDefaults cfg info.defaults).iam_redirect_uri = some v) ∧
    (cfg.iam_redirect_uri = none →
      (applyDefaults cfg info.defaults).iam_redirect_uri =
        info.defaults.lookup "iam_redirect_uri") := by
  have hlook : ServiceRegistry.REGISTRY.lookup s = some info := by
    unfold ServiceRegistry.get_service_info at h
    cases hl : ServiceRegistry.REGISTRY.lookup s with
    | none => rw [hl] at h; exact absurd h (by simp)
    | some v => rw [hl] at h; simp only [Except.ok.injEq] at h; rw [h]
  simp only [ServiceRegistry.REGISTRY, List.lookup] at hlook
  repeat' split at hlook
  all_goals
    first
      | exact Option.noConfusion hlook
      | (injection hlook with h2
         subst h2
         cases hic : cfg.iam_client <;> cases hiru : cfg.iam_redirect_uri <;>
           simp [applyDefaults_pair, List.lookup, hic, hiru])

/-- C7 witness: the theorem applied at service `"highway"` with the default
configuration, yielding the registry default for `iam_client`. -/
theorem C7_witness :
    (applyDefaults BaseConfig.default
      ({ scope := "openid",
         defaults := [("iam_client", "highway-public"),
                      ("iam_redirect_uri", "https://highway.esa.int/sso/auth/realms/highway/broker/DESP_IAM_PROD/endpoint")],
         token_exchange := some
           { token_url := "https://highway.esa.int/sso/auth/realms/highway/protocol/openid-connect/token",
             audience := "highway-public",
             subject_issuer := "DESP_IAM_PROD",
             client_id := some "highway-public" } } : ServiceInfo).defaults).iam_client =
      some "highway-public" := by
  have h := C7_defaults_frame "highway" _ rfl BaseConfig.default
  have h2 := h.2.2.2.2.2.2.2.1 rfl
  simpa [List.lookup] using h2

lemma token_exchange_requests (token_url subject_token : String)
    (client_id : Option String) (audience subject_issuer stt : String)
    (timeout : Nat) (resp : HttpResponse) :
    (token_exchange token_url subject_token client_id audience subject_issuer
        stt timeout resp).1 =
      [{ url := token_url,
         grant_type := TOKEN_EXCHANGE_GRANT_TYPE,
         subject_token := subject_token,
         subject_issuer := subject_issuer,
         subject_token_type := stt,
         client_id := client_id,
         audience := audience,
         timeout := timeout }] := by
  unfold token_exchange
  repeat' split
  all_goals rfl

lemma token_exchange_success (token_url subject_token : String)
    (client_id : Option String) (audience subject_issuer stt : String)
    (timeout : Nat) (resp : HttpResponse) (fields : List (String × String))
    (t : String) (h200 : resp.status_code = 200)
    (hjson : resp.jsonBody = some fields)
    (hlook : fields.lookup "access_token" = some t) (hne : t ≠ "") :
    (token_exchange token_url subject_token client_id audience subject_issuer
        stt timeout resp).2 = Except.ok t := by
  simp [token_exchange, h200, hjson, hlook, hne]

lemma token_exchange_failure (token_url subject_token : String)
    (client_id : Option String) (audience subject_issuer stt : String)
    (timeout : Nat) (resp : HttpResponse) (h : resp.status_code ≠ 200) :
    (token_exchange token_url subject_token client_id audience subject_issuer
        stt timeout resp).2 =
      Except.error (PyError.authenticationError
        ("Exchange failed: " ++ exchangeFailureMsg resp)) := by
  simp [token_exchange, h]

set_option maxRecDepth 4000 in
/-- C2 counterexample: at HTTP 400 with the parseable JSON body `{}` —
which contains neither `error_description` nor `error` — the code produces
the message "Exchange failed: Unknown", not (as the claim's fallback chain
states) the first 200 characters of the raw body. -/
theorem C2_counterexample :
    (token_exchange "https://iam.example/token" "tok" (some "cid") "aud"
        "iss" SUBJECT_TOKEN_TYPE_DEFAULT 10
        { status_code := 400, text := "\x7b\x7d", jsonBody := some [] }).2 =
      Except.error (PyError.authenticationError "Exchange failed: Unknown") ∧
    "Exchange failed: Unknown" ≠
      "Exchange failed: " ++ (("\x7b\x7d" : String).take 200) := by
  exact ⟨rfl, by decide⟩

/-- C2 (amended): a non-200 response always raises `AuthenticationError`
and never returns a token; the message surfaces `error_description` if
present, else `error`, else — when the body parses as JSON with neither
field — the literal "Unknown"; the first 200 characters of the raw body
are surfaced exactly when the body is not parseable JSON.  In particular
HTTP 400 with body `{"error": "invalid_grant"}` raises an
`AuthenticationError` whose message contains "invalid_grant". -/
theorem C2_exchange_error (token_url subject_token : String)
    (client_id : Option String) (audience subject_issuer stt : String)
    (timeout : Nat) (resp : HttpResponse) (h : resp.status_code ≠ 200) :
    (token_exchange token_url subject_token client_id audience subject_issuer
        stt timeout resp).2 =
      Except.error (PyError.authenticationError
        ("Exchange failed: " ++ exchangeFailureMsg resp)) ∧
    (∀ t, (token_exchange token_url subject_token client_id audience
        subject_issuer stt timeout resp).2 ≠ Except.ok t) ∧
    (∀ resp2 : HttpResponse, resp2.status_code = 400 →
      resp2.jsonBody = some [("error", "invalid_grant")] →
      (token_exchange token_url subject_token client_id audience
          subject_issuer stt timeout resp2).2 =
        Except.error (PyError.authenticationError
          "Exchange failed: invalid_grant")) := by
  have hmain := token_exchange_failure token_url subject_token client_id
    audience subject_issuer stt timeout resp h
  refine ⟨hmain, fun t hc => ?_, fun resp2 h400 hjson => ?_⟩
  · rw [hmain] at hc
    exact Except.noConfusion hc
  · have h2 : resp2.status_code ≠ 200 := by rw [h400]; decide
    rw [token_exchange_failure token_url subject_token client_id audience
      subject_issuer stt timeout resp2 h2]
    rw [exchangeFailureMsg, hjson]
    rfl

/-- C2 witness: the theorem applied at an HTTP 400 response carrying
`{"error": "invalid_grant"}`. -/
theorem C2_witness :
    (token_exchange "https://iam.example/token" "tok" (some "cid") "aud"
        "iss" SUBJECT_TOKEN_TYPE_DEFAULT 10
        { status_code := 400, text := "",
          jsonBody := some [("error", "invalid_grant")] }).2 =
      Except.error (PyError.authenticationError
        "Exchange failed: invalid_grant") := by
  have h := C2_exchange_error "https://iam.example/token" "tok" (some "cid")
    "aud" "iss" SUBJECT_TOKEN_TYPE_DEFAULT 10
    { status_code := 400, text := "",
      jsonBody := some [("error", "invalid_grant")] } (by decide)
  exact h.2.2 _ rfl rfl

/-- C3: `token_exchange` sends exactly one form-encoded POST to the given
URL (a singleton request list — no retry), with the RFC 8693 grant type,
the declared default `subject_token_type` and timeout 10, and on HTTP 200
with a non-empty `access_token` it returns exactly that token. -/
theorem C3_exchange_request (token_url subject_token : String)
    (client_id : Option String) (audience subject_issuer : String)
    (resp : HttpResponse) :
    (token_exchange token_url subject_token client_id audience subject_issuer
        SUBJECT_TOKEN_TYPE_DEFAULT TIMEOUT_DEFAULT resp).1 =
      [{ url := token_url,
         grant_type := "urn:ietf:params:oauth:grant-type:token-exchange",
         subject_token := subject_token,
         subject_issuer := subject_issuer,
         subject_token_type := "urn:ietf:params:oauth:token-type:access_token",
         client_id := client_id,
         audience := audience,
         timeout := 10 }] ∧
    (∀ fields t, resp.status_code = 200 → resp.jsonBody = some fields →
      fields.lookup "access_token" = some t → t ≠ "" →
      (token_exchange token_url subject_token client_id audience
          subject_issuer SUBJECT_TOKEN_TYPE_DEFAULT TIMEOUT_DEFAULT resp).2 =
        Except.ok t) := by
  constructor
  · rw [token_exchange_requests]
    rfl
  · intro fields t h200 hjson hlook hne
    exact token_exchange_success token_url subject_token client_id audience
      subject_issuer SUBJECT_TOKEN_TYPE_DEFAULT TIMEOUT_DEFAULT resp fields t
      h200 hjson hlook hne

/-- C3 witness: the theorem applied at a 200 response whose body carries
`access_token = "newtok"`. -/
theorem C3_witness :
    (token_exchange "https://iam.example/token" "tok" (some "cid") "aud"
        "iss" SUBJECT_TOKEN_TYPE_DEFAULT TIMEOUT_DEFAULT
        { status_code := 200, text := "",
          jsonBody := some [("access_token", "newtok")] }).2 =
      Except.ok "newtok" := by
  have h := C3_exchange_request "https://iam.example/token" "tok" (some "cid")
    "aud" "iss"
    { status_code := 200, text := "",
      jsonBody := some [("access_token", "newtok")] }
  exact h.2 _ "newtok" rfl rfl rfl (by decide)

/-- C8: on HTTP 200, a missing `access_token` field and an empty-string
`access_token` both raise `AuthenticationError` ("No access token in
exchange response"); `token_exchange` never returns the empty token. -/
theorem C8_falsy_access_token (token_url subject_token : String)
    (client_id : Option String) (audience subject_issuer stt : String)
    (timeout : Nat) (resp : HttpResponse) :
    (∀ fields, resp.status_code = 200 → resp.jsonBody = some fields →
      (fields.lookup "access_token" = none ∨
        fields.lookup "access_token" = some "") →
      (token_exchange token_url subject_token client_id audience
          subject_issuer stt timeout resp).2 =
        Except.error (PyError.authenticationError
          "No access token in exchange response")) ∧
    (∀ t, (token_exchange token_url subject_token client_id audience
        subject_issuer stt timeout resp).2 = Except.ok t → t ≠ "") := by
  constructor
  · intro fields h200 hjson hfalsy
    rcases hfalsy with hf | hf <;> simp [token_exchange, h200, hjson, hf]
  · intro t ht
    unfold token_exchange at ht
    repeat' split at ht
    all_goals simp_all

/-- C8 witness: the theorem applied at a 200 response whose `access_token`
field is the empty string. -/
theorem C8_witness :
    (token_exchange "https://iam.example/token" "tok" (some "cid") "aud"
        "iss" SUBJECT_TOKEN_TYPE_DEFAULT 10
        { status_code := 200, text := "",
          jsonBody := some [("access_token", "")] }).2 =
      Except.error (PyError.authenticationError
        "No access token in exchange response") := by
  have h := C8_falsy_access_token "https://iam.example/token" "tok"
    (some "cid") "aud" "iss" SUBJECT_TOKEN_TYPE_DEFAULT 10
    { status_code := 200, text := "", jsonBody := some [("access_token", "")] }
  exact h.1 _ rfl rfl (Or.inr rfl)

/-- C6: for service `"highway"`, `load_config` yields a hook that exchanges
any access token against the highway token endpoint with audience
`highway-public`, subject issuer `DESP_IAM_PROD` and client id
`highway-public`, and on success returns the exchanged token. -/
theorem C6_highway_hook (loaded : BaseConfig) (tok : String)
    (cfg : BaseConfig) (resp : HttpResponse) :
    ∃ config h,
      ConfigurationFactory.load_config "highway" loaded =
        Except.ok (config, "openid", some h) ∧
      (runExchangeHook h tok cfg resp).1 =
        [{ url := "https://highway.esa.int/sso/auth/realms/highway/protocol/openid-connect/token",
           grant_type := "urn:ietf:params:oauth:grant-type:token-exchange",
           subject_token := tok,
           subject_issuer := "DESP_IAM_PROD",
           subject_token_type := "urn:ietf:params:oauth:token-type:access_token",
           client_id := some "highway-public",
           audience := "highway-public",
           timeout := 10 }] ∧
      (∀ fields t, resp.status_code = 200 → resp.jsonBody = some fields →
        fields.lookup "access_token" = some t → t ≠ "" →
        (runExchangeHook h tok cfg resp).2 = Except.ok t) := by
  refine ⟨applyDefaults loaded
      [("iam_client", "highway-public"),
       ("iam_redirect_uri", "https://highway.esa.int/sso/auth/realms/highway/broker/DESP_IAM_PROD/endpoint")],
    { token_url := "https://highway.esa.int/sso/auth/realms/highway/protocol/openid-connect/token",
      audience := "highway-public",
      subject_issuer := "DESP_IAM_PROD",
      client_id := some "highway-public" }, rfl, ?_, ?_⟩
  · rw [runExchangeHook, token_exchange_requests]
    rfl
  · intro fields t h200 hjson hlook hne
    rw [runExchangeHook]
    exact token_exchange_success _ tok (some "highway-public")
      "highway-public" "DESP_IAM_PROD" SUBJECT_TOKEN_TYPE_DEFAULT 10 resp
      fields t h200 hjson hlook hne

/-- C6 witness: the theorem applied to a concrete token and a successful
exchange response. -/
theorem C6_witness :
    ∃ config h,
      ConfigurationFactory.load_config "highway" BaseConfig.default =
        Except.ok (config, "openid", some h) ∧
      (runExchangeHook h "tok" BaseConfig.default
          { status_code := 200, text := "",
            jsonBody := some [("access_token", "exchanged")] }).2 =
        Except.ok "exchanged" := by
  obtain ⟨config, h, hload, hreq, hsucc⟩ :=
    C6_highway_hook BaseConfig.default "tok" BaseConfig.default
      { status_code := 200, text := "",
        jsonBody := some [("access_token", "exchanged")] }
  exact ⟨config, h, hload, hsucc _ "exchanged" rfl rfl rfl (by decide)⟩

/-- C9: an exchange hook built by `load_config` ignores its config
argument — the exchange parameters come only from the registry values
captured at load time. -/
theorem C9_hook_ignores_config (s : String) (loaded config : BaseConfig)
    (scope : String) (h : ExchangeHookSpec)
    (hload : ConfigurationFactory.load_config s loaded =
      Except.ok (config, scope, some h))
    (tok : String) (cfg1 cfg2 : BaseConfig) (resp : HttpResponse) :
    runExchangeHook h tok cfg1 resp = runExchangeHook h tok cfg2 resp := rfl

/-- C9 witness: the theorem applied to the hook `load_config` builds for
`"highway"`, at two configurations differing in their `user` field. -/
theorem C9_witness :
    runExchangeHook
      { token_url := "https://highway.esa.int/sso/auth/realms/highway/protocol/openid-connect/token",
        audience := "highway-public",
        subject_issuer := "DESP_IAM_PROD",
        client_id := some "highway-public" } "tok" BaseConfig.default
      { status_code := 200, text := "", jsonBody := some [] } =
    runExchangeHook
      { token_url := "https://highway.esa.int/sso/auth/realms/highway/protocol/openid-connect/token",
        audience := "highway-public",
        subject_issuer := "DESP_IAM_PROD",
        client_id := some "highway-public" } "tok"
      { BaseConfig.default with user := some "someone" }
      { status_code := 200, text := "", jsonBody := some [] } :=
  C9_hook_ignores_config "highway" BaseConfig.default
    (applyDefaults BaseConfig.default
      [("iam_client", "highway-public"),
       ("iam_redirect_uri", "https://highway.esa.int/sso/auth/realms/highway/broker/DESP_IAM_PROD/endpoint")])
    "openid"
    { token_url := "https://highway.esa.int/sso/auth/realms/highway/protocol/openid-connect/token",
      audience := "highway-public",
      subject_issuer := "DESP_IAM_PROD",
      client_id := some "highway-public" }
    rfl "tok" BaseConfig.default
    { BaseConfig.default with user := some "someone" }
    { status_code := 200, text := "", jsonBody := some [] }

/-- C5: whenever `get_token` returns without raising, it returns `None`
when `write_netrc` is true, and otherwise exactly the `TokenResult`
produced by `login` (or `login_2fa` when `twofa` is true). -/
theorem C5_write_netrc_result
    (login : BaseConfig → String → Option ExchangeHookSpec → Bool →
      Except PyError TokenResult)
    (login_2fa : BaseConfig → String → Option ExchangeHookSpec → Bool →
      Option String → Except PyError TokenResult)
    (loaded : BaseConfig) (service : String) (write_netrc twofa : Bool)
    (otp : Option String) (r : Option TokenResult)
    (h : get_token login login_2fa loaded service write_netrc twofa otp =
      Except.ok r) :
    ∃ config scope hook,
      ConfigurationFactory.load_config service loaded =
        Except.ok (config, scope, hook) ∧
      (write_netrc = true → r = none) ∧
      (write_netrc = false → ∃ t,
        (if twofa then login_2fa config scope hook write_netrc otp
         else login config scope hook write_netrc) = Except.ok t ∧
        r = some t) := by
  unfold get_token at h
  cases hl : ConfigurationFactory.load_config service loaded with
  | error e => rw [hl] at h; exact absurd h (by simp)
  | ok trip =>
      obtain ⟨config, scope, hook⟩ := trip
      rw [hl] at h
      replace h :
          (match (if twofa then login_2fa config scope hook write_netrc otp
                  else login config scope hook write_netrc) with
            | Except.error e => Except.error e
            | Except.ok result =>
                Except.ok (if write_netrc then none else some result)) =
            Except.ok r := h
      refine ⟨config, scope, hook, rfl, ?_⟩
      cases hr : (if twofa then login_2fa config scope hook write_netrc otp
                  else login config scope hook write_netrc) with
      | error e2 => rw [hr] at h; exact absurd h (by simp)
      | ok t =>
          rw [hr] at h
          simp only [Except.ok.injEq] at h
          cases write_netrc with
          | false =>
              constructor
              · intro hw; exact absurd hw (by decide)
              · intro _
                refine ⟨t, rfl, ?_⟩
                simpa using h.symm
          | true =>
              constructor
              · intro _
                simpa using h.symm
              · intro hw; exact absurd hw (by decide)

/-- C5 witness: the theorem applied with stub login operations at service
`"highway"` and `write_netrc = true`, where the call evaluates to
`Except.ok none`. -/
theorem C5_witness :
    get_token (fun _ _ _ _ => Except.ok ⟨"tok", [], none⟩)
      (fun _ _ _ _ _ => Except.ok ⟨"tok", [], none⟩)
      BaseConfig.default "highway" true false none = Except.ok none ∧
    ∃ config scope hook,
      ConfigurationFactory.load_config "highway" BaseConfig.default =
        Except.ok (config, scope, hook) ∧
      (none : Option TokenResult) = none := by
  refine ⟨rfl, ?_⟩
  obtain ⟨config, scope, hook, hload, hw, _⟩ :=
    C5_write_netrc_result (fun _ _ _ _ => Except.ok ⟨"tok", [], none⟩)
      (fun _ _ _ _ _ => Except.ok ⟨"tok", [], none⟩)
      BaseConfig.default "highway" true false none none rfl
  exact ⟨config, scope, hook, hload, hw rfl⟩

/-- C10: when `twofa` is false, `get_token` is independent of `otp` — the
same login call is made and the same result returned for any two `otp`
values. -/
theorem C10_otp_independent
    (login : BaseConfig → String → Option ExchangeHookSpec → Bool →
      Except PyError TokenResult)
    (login_2fa : BaseConfig → String → Option ExchangeHookSpec → Bool →
      Option String → Except PyError TokenResult)
    (loaded : BaseConfig) (service : String) (write_netrc : Bool)
    (otp1 otp2 : Option String) :
    get_token login login_2fa loaded service write_netrc false otp1 =
      get_token login login_2fa loaded service write_netrc false otp2 := rfl
